import Mathlib

/-!
Verification of the hotel recommendation service core
(`hotel_recommendation/logic.py` and the `/recommendations` handler of
`hotel_recommendation/main.py`).

Numbers (`price`, `rating`, scores) are modelled as rationals; Python's
`round(x, 1)` is modelled as rounding `10·x` to the nearest integer and
dividing by 10.  Remote interactions (the generative-text API) are not part
of the repository: they are modelled as explicit parameters — an optional
API key (`None`/empty string is "unconfigured", matching Python truthiness
of `API_KEY`), and the outcome of each remote call (failure / returned
text, or for the reranker the parsed list of ranking items, with `none`
standing for any call or JSON-parse failure).
-/

/-- Python truthiness of an optional string: `None` and `""` are falsy. -/
def truthyS : Option String → Bool
  | none => false
  | some s => !s.data.isEmpty

/-- Python `str.lower()`: lowercase every character. -/
def lowerStr (s : String) : String := ⟨s.data.map Char.toLower⟩

/-- `needle in hay` on lists of characters: `needle` occurs contiguously. -/
def isSubstrOf : List Char → List Char → Bool
  | needle, [] => needle.isEmpty
  | needle, c :: rest => needle.isPrefixOf (c :: rest) || isSubstrOf needle rest

/-- `models.Hotel` (pydantic model). -/
structure Hotel where
  id : Int
  name : String
  location : String
  price : ℚ
  rating : ℚ
  amenities : List String
  description : String
deriving DecidableEq

/-- `models.UserPreference` (pydantic model). -/
structure UserPreference where
  location : Option String := none
  min_price : ℚ := 0
  max_price : ℚ := 10000
  required_amenities : List String := []
  trip_description : Option String := none
deriving DecidableEq

/-- `models.RecommendationResponse`; also the shape of the dicts returned
by `rerank_hotels`. -/
structure RecommendationResponse where
  hotel : Hotel
  score : ℚ
  reasoning : String
deriving DecidableEq

/-- `logic.filter_hotels`: keeps the hotels that pass the location,
price-range and required-amenities checks, in order.  The Python code
skips the location check when `location` is falsy and the amenity check
when the `amenities` list is empty. -/
def filter_hotels (hotels : List Hotel) (location : Option String := none)
    (min_price : ℚ := 0) (max_price : ℚ := 10000)
    (amenities : List String := []) : List Hotel :=
  hotels.filter fun hotel =>
    (!truthyS location ||
      isSubstrOf (lowerStr (location.getD "")).data (lowerStr hotel.location).data)
    && (decide (min_price ≤ hotel.price) && decide (hotel.price ≤ max_price))
    && (amenities.isEmpty ||
        amenities.all fun required_amenity =>
          (hotel.amenities.map lowerStr).contains (lowerStr required_amenity))

/-- Python `round(x, 1)`: round to one decimal place. -/
def round1 (x : ℚ) : ℚ := (round (x * 10) : ℚ) / 10

/-- `logic.calculate_recommendation_score`: 40-point flat within-budget
bonus (the graduated bonus is commented out in the source), proportional
rating component, amenity-count component capped at 30, rounded to one
decimal. -/
def calculate_recommendation_score (hotel : Hotel) (user_pref : UserPreference) : ℚ :=
  let score : ℚ := 0
  let score := if 0 < user_pref.max_price then
      if hotel.price / user_pref.max_price ≤ 1 then score + 40 else score
    else score
  let score := score + hotel.rating / 5 * 30
  let score := score + min ((hotel.amenities.length : ℚ) * 6) 30
  round1 score

/-- Outcome of one `model.generate_content` call in
`generate_recommendation_reason`: the call raised, or returned `text`. -/
inductive GenResult where
  | failure
  | success (text : String)
deriving DecidableEq

/-- The template fallback string built at the top of
`logic.generate_recommendation_reason`. -/
def fallback_reason (hotel : Hotel) : String :=
  "This hotel is a great match located in " ++ hotel.location ++
    " with a rating of " ++ toString hotel.rating ++
    ". It costs $" ++ toString hotel.price ++ " per night."

/-- `logic.generate_recommendation_reason`: asks the remote model when an
API key is configured and returns its text (newlines collapsed, trimmed)
when non-empty; otherwise returns the template fallback. -/
def generate_recommendation_reason (apiKey : Option String) (remote : GenResult)
    (hotel : Hotel) (user_pref : UserPreference) (score : ℚ) : String :=
  if truthyS apiKey then
    match remote with
    | .failure => fallback_reason hotel
    | .success text =>
        if text.data.isEmpty then fallback_reason hotel
        else (text.replace "\n" " ").trim
  else fallback_reason hotel

/-- One parsed element of the reranker's JSON reply: each field is read
with `dict.get` and so may be absent. -/
structure RankItem where
  index : Option Int
  score : Option ℚ
  reasoning : Option String
deriving DecidableEq

/-- `logic.rerank_hotels`: returns `[]` when no trip description or no API
key is configured, or when the remote call / JSON parse fails (`remote =
none`); otherwise maps each parsed ranking item with an in-range index
back to the candidate at that index. -/
def rerank_hotels (apiKey : Option String) (remote : Option (List RankItem))
    (hotels : List Hotel) (user_pref : UserPreference) : List RecommendationResponse :=
  if !truthyS user_pref.trip_description || !truthyS apiKey then []
  else
    match remote with
    | none => []
    | some rankings =>
        rankings.filterMap fun rank =>
          match rank.index with
          | none => none
          | some idx =>
              if 0 ≤ idx ∧ idx < (hotels.length : Int) then
                match hotels[idx.toNat]? with
                | some h => some ⟨h, rank.score.getD 0, rank.reasoning.getD "AI Recommended"⟩
                | none => none
              else none

/-- Descending stable sort by `.score`, modelling
`list.sort(key=lambda x: x.score, reverse=True)`. -/
def sortDescByScore (l : List RecommendationResponse) : List RecommendationResponse :=
  List.insertionSort (fun a b => b.score ≤ a.score) l

/-- The non-AI branch of `main.get_recommendations`: score every filtered
hotel, attach a reason, sort descending by score. -/
def recsFallback (apiKey : Option String) (reasonRemote : Hotel → GenResult)
    (filtered : List Hotel) (user_pref : UserPreference) : List RecommendationResponse :=
  sortDescByScore (filtered.map fun hotel =>
    { hotel := hotel
      score := calculate_recommendation_score hotel user_pref
      reasoning := generate_recommendation_reason apiKey (reasonRemote hotel)
        hotel user_pref (calculate_recommendation_score hotel user_pref) })

/-- The shortlist built inside `main.get_recommendations`: filtered hotels
scored, sorted descending by score, first five taken. -/
def topCandidates (filtered : List Hotel) (user_pref : UserPreference) : List Hotel :=
  ((List.insertionSort (fun a b : Hotel × ℚ => b.2 ≤ a.2)
      (filtered.map fun hotel => (hotel, calculate_recommendation_score hotel user_pref))).take
    5).map Prod.fst

/-- `main.get_recommendations` (`POST /recommendations`): filter, then the
reranker path when a trip description is present, else (or when the
reranker returns nothing) the score-and-sort fallback. -/
def get_recommendations (apiKey : Option String) (reasonRemote : Hotel → GenResult)
    (rerankRemote : Option (List RankItem)) (all_hotels : List Hotel)
    (user_pref : UserPreference) : List RecommendationResponse :=
  let filtered := filter_hotels all_hotels user_pref.location user_pref.min_price
    user_pref.max_price user_pref.required_amenities
  if truthyS user_pref.trip_description then
    let reranked := rerank_hotels apiKey rerankRemote
      (topCandidates filtered user_pref) user_pref
    if reranked.isEmpty then recsFallback apiKey reasonRemote filtered user_pref
    else reranked
  else recsFallback apiKey reasonRemote filtered user_pref

/-! ### Helper lemmas -/

lemma isSubstrOf_nil (hay : List Char) : isSubstrOf [] hay = true := by
  cases hay <;> simp [isSubstrOf, List.isPrefixOf]

lemma isEmpty_or_all (A : List String) (f : String → Bool) :
    (A.isEmpty || A.all f) = A.all f := by
  cases A <;> simp

lemma round1_mono {x y : ℚ} (h : x ≤ y) : round1 x ≤ round1 y := by
  unfold round1
  have hr : round (x * 10) ≤ round (y * 10) := by
    rw [round_eq, round_eq]
    exact Int.floor_le_floor (by linarith)
  have : ((round (x * 10) : ℤ) : ℚ) ≤ ((round (y * 10) : ℤ) : ℚ) := by exact_mod_cast hr
  linarith

/-- The predicate of claim C2, written from the spec's description of the
filter: optional case-insensitive location substring, inclusive price
range, all required amenities case-insensitively present. -/
def claimPred (location : Option String) (min_price max_price : ℚ)
    (amenities : List String) (hotel : Hotel) : Bool :=
  (match location with
   | none => true
   | some l => isSubstrOf (lowerStr l).data (lowerStr hotel.location).data)
  && (decide (min_price ≤ hotel.price) && decide (hotel.price ≤ max_price))
  && amenities.all fun a => (hotel.amenities.map lowerStr).contains (lowerStr a)

/-- Closed form of the score: flat within-budget bonus, rating component,
capped amenity component, rounded to one decimal. -/
lemma calculate_score_eq (hotel : Hotel) (user_pref : UserPreference) :
    calculate_recommendation_score hotel user_pref =
      round1 ((if hotel.price ≤ user_pref.max_price ∧ 0 < user_pref.max_price then (40 : ℚ) else 0)
        + hotel.rating / 5 * 30 + min (6 * (hotel.amenities.length : ℚ)) 30) := by
  have hif : (if 0 < user_pref.max_price then
        (if hotel.price / user_pref.max_price ≤ 1 then (0 : ℚ) + 40 else (0 : ℚ)) else (0 : ℚ))
      = if hotel.price ≤ user_pref.max_price ∧ 0 < user_pref.max_price then (40 : ℚ) else 0 := by
    by_cases hpos : 0 < user_pref.max_price
    · by_cases hle : hotel.price ≤ user_pref.max_price
      · simp [hpos, hle, (div_le_one hpos).mpr hle]
      · have hgt : ¬hotel.price / user_pref.max_price ≤ 1 :=
          fun hc => hle ((div_le_one hpos).mp hc)
        simp [hpos, hle, hgt]
    · simp [hpos]
  simp only [calculate_recommendation_score]
  rw [hif, mul_comm ((hotel.amenities.length : ℚ)) (6 : ℚ)]

/-! ### Claims -/

/-- C1: `calculate_recommendation_score` equals the flat 40-point
within-budget bonus (`price ≤ max_price` and `max_price > 0`; no graduated
cheaper-is-better bonus), plus `(rating / 5) · 30`, plus
`min(6 · amenity_count, 30)`, rounded to one decimal place. -/
theorem spec_C1 (hotel : Hotel) (user_pref : UserPreference) :
    calculate_recommendation_score hotel user_pref =
      round1 ((if hotel.price ≤ user_pref.max_price ∧ 0 < user_pref.max_price then (40 : ℚ) else 0)
        + hotel.rating / 5 * 30 + min (6 * (hotel.amenities.length : ℚ)) 30) :=
  calculate_score_eq hotel user_pref

/-- C2: `filter_hotels` returns exactly the hotels passing the
case-insensitive location substring check, the inclusive price range
check and the case-insensitive required-amenities check; the result is a
sublist of the input (order preserved) and an empty input gives an empty
result. -/
theorem spec_C2 (H : List Hotel) (location : Option String)
    (min_price max_price : ℚ) (amenities : List String) :
    filter_hotels H location min_price max_price amenities =
      H.filter (claimPred location min_price max_price amenities) ∧
    (filter_hotels H location min_price max_price amenities).Sublist H ∧
    (∀ hotel, hotel ∈ filter_hotels H location min_price max_price amenities ↔
      hotel ∈ H ∧ claimPred location min_price max_price amenities hotel = true) ∧
    filter_hotels ([] : List Hotel) location min_price max_price amenities = [] := by
  have hpt : ∀ hotel : Hotel,
      ((!truthyS location ||
        isSubstrOf (lowerStr (location.getD "")).data (lowerStr hotel.location).data)
      && (decide (min_price ≤ hotel.price) && decide (hotel.price ≤ max_price))
      && (amenities.isEmpty ||
          amenities.all fun required_amenity =>
            (hotel.amenities.map lowerStr).contains (lowerStr required_amenity)))
      = claimPred location min_price max_price amenities hotel := by
    intro hotel
    cases location with
    | none => simp [truthyS, claimPred, isEmpty_or_all]
    | some l =>
        by_cases hl : l.data.isEmpty
        · have hld : (lowerStr l).data = [] := by
            simp [lowerStr, List.isEmpty_iff.mp hl]
          simp [truthyS, claimPred, hl, hld, isSubstrOf_nil, isEmpty_or_all]
        · simp [truthyS, claimPred, hl, isEmpty_or_all]
  refine ⟨?_, ?_, ?_, ?_⟩
  · exact List.filter_congr fun hotel _ => hpt hotel
  · exact List.filter_sublist H
  · intro hotel
    rw [show filter_hotels H location min_price max_price amenities
        = H.filter (claimPred location min_price max_price amenities) from
      List.filter_congr fun hotel _ => hpt hotel]
    exact List.mem_filter
  · rfl

lemma round1_zero : round1 0 = 0 := by norm_num [round1]

lemma round1_hundred : round1 100 = 100 := by norm_num [round1]

/-- C3 (counterexample): a hotel within budget with rating 5 and five
amenities has rating in `[0, 5]` yet scores `100`, outside `[0, 70]`. -/
theorem spec_C3_cex :
    (0 : ℚ) ≤ (⟨1, "Grand", "Goa", 100, 5, ["wifi", "pool", "spa", "gym", "bar"], "d"⟩ : Hotel).rating ∧
    (⟨1, "Grand", "Goa", 100, 5, ["wifi", "pool", "spa", "gym", "bar"], "d"⟩ : Hotel).rating ≤ 5 ∧
    calculate_recommendation_score
      ⟨1, "Grand", "Goa", 100, 5, ["wifi", "pool", "spa", "gym", "bar"], "d"⟩
      ⟨none, 0, 200, [], none⟩ = 100 ∧
    ¬calculate_recommendation_score
      ⟨1, "Grand", "Goa", 100, 5, ["wifi", "pool", "spa", "gym", "bar"], "d"⟩
      ⟨none, 0, 200, [], none⟩ ≤ 70 := by
  have h : calculate_recommendation_score
      ⟨1, "Grand", "Goa", 100, 5, ["wifi", "pool", "spa", "gym", "bar"], "d"⟩
      ⟨none, 0, 200, [], none⟩ = 100 := by
    norm_num [calculate_recommendation_score, round1, min_def]
  exact ⟨by norm_num, by norm_num, h, by rw [h]; norm_num⟩

/-- C3 (amended): for a hotel whose rating lies in `[0, 5]`, the score lies
in `[0, 100]` (the three components are bounded by 40, 30 and 30). -/
theorem spec_C3 (hotel : Hotel) (user_pref : UserPreference)
    (h0 : 0 ≤ hotel.rating) (h5 : hotel.rating ≤ 5) :
    0 ≤ calculate_recommendation_score hotel user_pref ∧
    calculate_recommendation_score hotel user_pref ≤ 100 := by
  rw [calculate_score_eq]
  have hA : 0 ≤ (if hotel.price ≤ user_pref.max_price ∧ 0 < user_pref.max_price then (40 : ℚ) else 0) ∧
      (if hotel.price ≤ user_pref.max_price ∧ 0 < user_pref.max_price then (40 : ℚ) else 0) ≤ 40 := by
    split_ifs <;> norm_num
  have hC : 0 ≤ min (6 * (hotel.amenities.length : ℚ)) 30 ∧
      min (6 * (hotel.amenities.length : ℚ)) 30 ≤ 30 :=
    ⟨le_min (by positivity) (by norm_num), min_le_right _ _⟩
  constructor
  · have := round1_mono (show (0 : ℚ) ≤
        (if hotel.price ≤ user_pref.max_price ∧ 0 < user_pref.max_price then (40 : ℚ) else 0)
          + hotel.rating / 5 * 30 + min (6 * (hotel.amenities.length : ℚ)) 30 by
      have := hA.1; have := hC.1; linarith)
    rwa [round1_zero] at this
  · have := round1_mono (show
        (if hotel.price ≤ user_pref.max_price ∧ 0 < user_pref.max_price then (40 : ℚ) else 0)
          + hotel.rating / 5 * 30 + min (6 * (hotel.amenities.length : ℚ)) 30 ≤ (100 : ℚ) by
      have := hA.2; have := hC.2; linarith)
    rwa [round1_hundred] at this

/-- C3 (witness): the amended bounds at a concrete hotel with rating 4. -/
theorem spec_C3_witness :
    0 ≤ calculate_recommendation_score ⟨1, "A", "Goa", 100, 4, ["wifi"], "d"⟩
      ⟨none, 0, 200, [], none⟩ ∧
    calculate_recommendation_score ⟨1, "A", "Goa", 100, 4, ["wifi"], "d"⟩
      ⟨none, 0, 200, [], none⟩ ≤ 100 :=
  spec_C3 ⟨1, "A", "Goa", 100, 4, ["wifi"], "d"⟩ ⟨none, 0, 200, [], none⟩
    (by norm_num) (by norm_num)

/-- C4 (counterexample): with no criteria supplied (defaults `location =
None`, `min_price = 0`, `max_price = 10000`, no amenities) the price check
is still applied, so a hotel priced 20000 is dropped and the collection is
not returned unchanged. -/
theorem spec_C4_cex :
    filter_hotels [⟨2, "B", "Mumbai", 20000, 3, [], "d"⟩] none 0 10000 []
      ≠ [⟨2, "B", "Mumbai", 20000, 3, [], "d"⟩] := by decide

/-- C4 (amended): with no criteria supplied, the location and amenity
checks are skipped, but the default price bounds `[0, 10000]` still apply:
the result is the hotels priced within `[0, 10000]`, in order; it is all
of `H` exactly when every hotel's price lies in `[0, 10000]`. -/
theorem spec_C4 (H : List Hotel) :
    filter_hotels H none 0 10000 [] =
      H.filter (fun hotel => decide (0 ≤ hotel.price) && decide (hotel.price ≤ 10000)) ∧
    ((∀ hotel ∈ H, 0 ≤ hotel.price ∧ hotel.price ≤ 10000) →
      filter_hotels H none 0 10000 [] = H) := by
  have h1 : filter_hotels H none 0 10000 [] =
      H.filter (fun hotel => decide (0 ≤ hotel.price) && decide (hotel.price ≤ 10000)) := by
    unfold filter_hotels
    apply List.filter_congr
    intro hotel _
    simp [truthyS]
  refine ⟨h1, fun hall => ?_⟩
  rw [h1]
  apply List.filter_eq_self.mpr
  intro hotel ha
  obtain ⟨hp0, hp1⟩ := hall hotel ha
  simp [hp0, hp1]

/-- C4 (witness): a collection whose only hotel is priced within the
default bounds is returned unchanged. -/
theorem spec_C4_witness :
    filter_hotels [⟨1, "A", "Goa", 100, 4, ["wifi"], "d"⟩] none 0 10000 [] =
      [⟨1, "A", "Goa", 100, 4, ["wifi"], "d"⟩] :=
  (spec_C4 [⟨1, "A", "Goa", 100, 4, ["wifi"], "d"⟩]).2 (by decide)

/-- C5: an inverted price range (`max_price < min_price`) filters out
every hotel, for any location and amenity criteria. -/
theorem spec_C5 (H : List Hotel) (location : Option String)
    (min_price max_price : ℚ) (amenities : List String)
    (h : max_price < min_price) :
    filter_hotels H location min_price max_price amenities = [] := by
  unfold filter_hotels
  rw [List.filter_eq_nil_iff]
  intro hotel _
  intro hcontra
  simp only [Bool.and_eq_true, decide_eq_true_eq] at hcontra
  obtain ⟨⟨_, h1, h2⟩, _⟩ := hcontra
  linarith

/-- C5 (witness): the inverted range `[5, 1]` empties a one-hotel list. -/
theorem spec_C5_witness :
    filter_hotels [⟨1, "A", "Goa", 100, 4, ["wifi"], "d"⟩] none 5 1 [] = [] :=
  spec_C5 [⟨1, "A", "Goa", 100, 4, ["wifi"], "d"⟩] none 5 1 [] (by norm_num)

/-- C6: when the API key is unconfigured, the remote call fails, or the
remote call returns empty text, `generate_recommendation_reason` returns
exactly the template sentence built from the hotel's fields, which is a
non-empty string. -/
theorem spec_C6 (apiKey : Option String) (remote : GenResult) (hotel : Hotel)
    (user_pref : UserPreference) (score : ℚ)
    (h : truthyS apiKey = false ∨ remote = GenResult.failure ∨ remote = GenResult.success "") :
    generate_recommendation_reason apiKey remote hotel user_pref score = fallback_reason hotel ∧
    fallback_reason hotel ≠ "" := by
  constructor
  · unfold generate_recommendation_reason
    rcases h with h | h | h
    · simp [h]
    · subst h
      split <;> rfl
    · subst h
      split <;> rfl
  · intro hEq
    have hlen : (fallback_reason hotel).length = 0 := by rw [hEq]; rfl
    rw [fallback_reason] at hlen
    simp only [String.length_append] at hlen
    have hpos : (0 : Nat) < ("This hotel is a great match located in " : String).length := by
      decide
    omega

/-- C6 (witness): the fallback is returned, non-empty, for a concrete
hotel with no API key configured. -/
theorem spec_C6_witness :
    generate_recommendation_reason none GenResult.failure
        ⟨1, "A", "Goa", 100, 4, ["wifi"], "d"⟩ ⟨none, 0, 200, [], none⟩ 50 =
      fallback_reason ⟨1, "A", "Goa", 100, 4, ["wifi"], "d"⟩ ∧
    fallback_reason ⟨1, "A", "Goa", 100, 4, ["wifi"], "d"⟩ ≠ "" :=
  spec_C6 none GenResult.failure ⟨1, "A", "Goa", 100, 4, ["wifi"], "d"⟩
    ⟨none, 0, 200, [], none⟩ 50 (Or.inl rfl)

/-- C7: `rerank_hotels` returns `[]` when there is no (truthy) trip
description, no (truthy) API key, or the remote call / parse fails; and
with an empty candidate list it returns `[]` whatever the remote reply. -/
theorem spec_C7 (apiKey : Option String) (remote : Option (List RankItem))
    (hotels : List Hotel) (user_pref : UserPreference) :
    ((truthyS user_pref.trip_description = false ∨ truthyS apiKey = false ∨ remote = none) →
      rerank_hotels apiKey remote hotels user_pref = []) ∧
    rerank_hotels apiKey remote [] user_pref = [] := by
  constructor
  · rintro (h | h | h) <;> unfold rerank_hotels
    · simp [h]
    · simp [h]
    · subst h
      split <;> rfl
  · unfold rerank_hotels
    split
    · rfl
    · match remote with
      | none => rfl
      | some rankings =>
          apply List.filterMap_eq_nil_iff.mpr
          intro rank _
          match hidx : rank.index with
          | none => rfl
          | some idx =>
              have : ¬(0 ≤ idx ∧ idx < (([] : List Hotel).length : Int)) := by
                simp only [List.length_nil]
                omega
              simp [this]

/-- C7 (witness): a failed remote call on a one-hotel shortlist, and an
empty shortlist, both give an empty reranking. -/
theorem spec_C7_witness :
    rerank_hotels (some "k") none [⟨1, "A", "Goa", 100, 4, ["wifi"], "d"⟩]
        ⟨none, 0, 200, [], some "beach trip"⟩ = [] ∧
    rerank_hotels (some "k") none []
        ⟨none, 0, 200, [], some "beach trip"⟩ = [] :=
  ⟨(spec_C7 (some "k") none [⟨1, "A", "Goa", 100, 4, ["wifi"], "d"⟩]
      ⟨none, 0, 200, [], some "beach trip"⟩).1 (Or.inr (Or.inr rfl)),
    (spec_C7 (some "k") none [] ⟨none, 0, 200, [], some "beach trip"⟩).2⟩

/-- The per-item mapping described by claim C8: an item with a missing or
out-of-range index is dropped; an in-range index selects the candidate at
that position, with score defaulting to 0 and reasoning to
"AI Recommended". -/
def claimRerankItem (hotels : List Hotel) (rank : RankItem) : Option RecommendationResponse :=
  match rank.index with
  | none => none
  | some idx =>
      if h : 0 ≤ idx ∧ idx < (hotels.length : Int) then
        some { hotel := hotels.get ⟨idx.toNat, by omega⟩
               score := rank.score.getD 0
               reasoning := rank.reasoning.getD "AI Recommended" }
      else none

/-- C8: on a successfully parsed reply, `rerank_hotels` is exactly the
item-wise mapping `claimRerankItem`: out-of-range or missing indices are
silently dropped, in-range ones emit the candidate at that index with the
item's score and reasoning (defaults 0 and "AI Recommended"). -/
theorem spec_C8 (apiKey : Option String) (rankings : List RankItem)
    (hotels : List Hotel) (user_pref : UserPreference)
    (h1 : truthyS user_pref.trip_description = true) (h2 : truthyS apiKey = true) :
    rerank_hotels apiKey (some rankings) hotels user_pref =
      rankings.filterMap (claimRerankItem hotels) := by
  unfold rerank_hotels
  rw [if_neg (by simp [h1, h2])]
  apply List.filterMap_congr
  intro rank _
  rcases hrank : rank.index with _ | idx
  · simp [claimRerankItem, hrank]
  · by_cases hin : 0 ≤ idx ∧ idx < (hotels.length : Int)
    · have hlt : idx.toNat < hotels.length := by omega
      simp only [claimRerankItem, hrank]
      rw [dif_pos hin, if_pos hin, List.getElem?_eq_getElem hlt]
      rfl
    · simp only [claimRerankItem, hrank]
      rw [dif_neg hin, if_neg hin]

/-- C8 (witness): a concrete parsed reply with one in-range item (missing
reasoning), one out-of-range item, and one missing index. -/
theorem spec_C8_witness :
    rerank_hotels (some "k")
        (some [⟨some 0, some 55, none⟩, ⟨some 7, some 1, some "x"⟩, ⟨none, some 2, none⟩])
        [⟨1, "A", "Goa", 100, 4, ["wifi"], "d"⟩]
        ⟨none, 0, 200, [], some "beach trip"⟩ =
      [⟨some 0, some 55, none⟩, ⟨some 7, some 1, some "x"⟩,
        (⟨none, some 2, none⟩ : RankItem)].filterMap
        (claimRerankItem [⟨1, "A", "Goa", 100, 4, ["wifi"], "d"⟩]) :=
  spec_C8 (some "k")
    [⟨some 0, some 55, none⟩, ⟨some 7, some 1, some "x"⟩, ⟨none, some 2, none⟩]
    [⟨1, "A", "Goa", 100, 4, ["wifi"], "d"⟩]
    ⟨none, 0, 200, [], some "beach trip"⟩ rfl rfl

/-- C9: when the reranker path is not taken (no truthy trip description,
or the reranking of the shortlist is empty), `get_recommendations` returns
one entry per filtered hotel — each carrying that hotel's computed score
and generated reasoning — sorted in descending order of score. -/
theorem spec_C9 (apiKey : Option String) (reasonRemote : Hotel → GenResult)
    (rerankRemote : Option (List RankItem)) (all_hotels : List Hotel)
    (user_pref : UserPreference)
    (h : truthyS user_pref.trip_description = false ∨
      rerank_hotels apiKey rerankRemote
        (topCandidates (filter_hotels all_hotels user_pref.location user_pref.min_price
          user_pref.max_price user_pref.required_amenities) user_pref) user_pref = []) :
    (get_recommendations apiKey reasonRemote rerankRemote all_hotels user_pref).Perm
      ((filter_hotels all_hotels user_pref.location user_pref.min_price
          user_pref.max_price user_pref.required_amenities).map fun hotel =>
        { hotel := hotel
          score := calculate_recommendation_score hotel user_pref
          reasoning := generate_recommendation_reason apiKey (reasonRemote hotel)
            hotel user_pref (calculate_recommendation_score hotel user_pref) }) ∧
    (get_recommendations apiKey reasonRemote rerankRemote all_hotels user_pref).Sorted
      (fun a b => b.score ≤ a.score) := by
  have hfall : get_recommendations apiKey reasonRemote rerankRemote all_hotels user_pref =
      recsFallback apiKey reasonRemote
        (filter_hotels all_hotels user_pref.location user_pref.min_price
          user_pref.max_price user_pref.required_amenities) user_pref := by
    unfold get_recommendations
    rcases h with h | h
    · simp [h]
    · simp [h]
  rw [hfall]
  unfold recsFallback sortDescByScore
  haveI htot : IsTotal RecommendationResponse (fun a b => b.score ≤ a.score) :=
    ⟨fun a b => le_total b.score a.score⟩
  haveI htrans : IsTrans RecommendationResponse (fun a b => b.score ≤ a.score) :=
    ⟨fun _ _ _ hab hbc => le_trans hbc hab⟩
  exact ⟨List.perm_insertionSort _ _, List.sorted_insertionSort _ _⟩

/-- C9 (witness): two hotels, one over budget, no trip description: the
result is the mapped and descending-sorted filtered list. -/
theorem spec_C9_witness :
    (get_recommendations none (fun _ => GenResult.failure) none
        [⟨2, "B", "Mumbai", 300, 3, [], "d"⟩, ⟨1, "A", "Goa", 100, 4, ["wifi"], "d"⟩]
        ⟨none, 0, 200, [], none⟩).Perm
      ((filter_hotels [⟨2, "B", "Mumbai", 300, 3, [], "d"⟩, ⟨1, "A", "Goa", 100, 4, ["wifi"], "d"⟩]
          none 0 200 []).map fun hotel =>
        { hotel := hotel
          score := calculate_recommendation_score hotel ⟨none, 0, 200, [], none⟩
          reasoning := generate_recommendation_reason none GenResult.failure hotel
            ⟨none, 0, 200, [], none⟩
            (calculate_recommendation_score hotel ⟨none, 0, 200, [], none⟩) }) ∧
    (get_recommendations none (fun _ => GenResult.failure) none
        [⟨2, "B", "Mumbai", 300, 3, [], "d"⟩, ⟨1, "A", "Goa", 100, 4, ["wifi"], "d"⟩]
        ⟨none, 0, 200, [], none⟩).Sorted (fun a b => b.score ≤ a.score) :=
  spec_C9 none (fun _ => GenResult.failure) none
    [⟨2, "B", "Mumbai", 300, 3, [], "d"⟩, ⟨1, "A", "Goa", 100, 4, ["wifi"], "d"⟩]
    ⟨none, 0, 200, [], none⟩ (Or.inl rfl)

/-- C10: the score is monotone in the hotel's rating: with every other
field fixed, a lower-or-equal rating gives a lower-or-equal score (the
rounding to one decimal preserves the ordering). -/
theorem spec_C10 (hotel : Hotel) (user_pref : UserPreference) (r1 r2 : ℚ)
    (h : r1 ≤ r2) :
    calculate_recommendation_score { hotel with rating := r1 } user_pref ≤
      calculate_recommendation_score { hotel with rating := r2 } user_pref := by
  rw [calculate_score_eq, calculate_score_eq]
  apply round1_mono
  dsimp only
  have hr : r1 / 5 * 30 ≤ r2 / 5 * 30 := by linarith
  linarith

/-- C10 (witness): raising the rating from 2 to 3 does not lower the
score of a concrete hotel. -/
theorem spec_C10_witness :
    calculate_recommendation_score
        { (⟨1, "A", "Goa", 100, 4, ["wifi"], "d"⟩ : Hotel) with rating := 2 }
        ⟨none, 0, 200, [], none⟩ ≤
      calculate_recommendation_score
        { (⟨1, "A", "Goa", 100, 4, ["wifi"], "d"⟩ : Hotel) with rating := 3 }
        ⟨none, 0, 200, [], none⟩ :=
  spec_C10 ⟨1, "A", "Goa", 100, 4, ["wifi"], "d"⟩ ⟨none, 0, 200, [], none⟩ 2 3
    (by norm_num)
